import Mathlib

/-!
Shallow embedding of the latency-probe agent (Rust sources under src/):
the tick scheduler (`src/scheduler.rs`), the per-tick dispatch closure
(`src/main.rs`), the four probe drivers (`src/prober/*.rs`), the timeout
counter of the metrics sink (`src/metrics.rs`), and the target
configuration (`src/config.rs`).  Durations and instants are modelled in
whole milliseconds as naturals; ports are naturals (the u16 range plays
no role in the properties below); fallible Rust functions returning
`anyhow::Result<T>` are modelled as `Except String T`.  Network and
library behaviour (DNS, sockets, the ping / HTTP client libraries) is
modelled by explicit environment records of response functions, so every
driver and the dispatch closure become pure functions of target, timeout
and environment.
-/

namespace LatencyProbe

/-- ProbeKind from `src/prober/mod.rs`: the four probe protocols. -/
inductive ProbeKind where
  | icmp
  | tcpConnect
  | http
  | echo
deriving DecidableEq, Repr

/-- TargetConfig from `src/config.rs`: one configured probe target.
`port` is optional exactly as in the source. -/
structure TargetConfig where
  name : String
  kind : ProbeKind
  host : String
  port : Option Nat
deriving DecidableEq, Repr

/-- TargetConfig::get_http_url from `src/config.rs`:
`format!("{}:{}", host, port)` with `port = self.port.unwrap_or(80)`. -/
def TargetConfig.get_http_url (t : TargetConfig) : String :=
  t.host ++ ":" ++ toString (t.port.getD 80)

/-- Scheduler from `src/scheduler.rs`: holds the tick interval
(`Duration`, modelled in ms). -/
structure Scheduler where
  interval : Nat
deriving DecidableEq, Repr

/-- Scheduler::new from `src/scheduler.rs`: returns
`Ok(Self { interval: Duration::from_millis(interval_ms) })`
unconditionally — there is no validation of `interval_ms`. -/
def Scheduler.new (interval_ms : Nat) : Except String Scheduler :=
  .ok { interval := interval_ms }

/-- The `next` deadline held by the loop of Scheduler::run
(`src/scheduler.rs`): `next` starts at `Instant::now()` (the baseline
`t0`), and each iteration begins with `next += self.interval`.
`nextDeadline t0 I n` is the value of `next` during iteration `n`, after
that increment.  The spawned jobs' durations (`jobDur`) are carried as a
parameter to record that nothing of the spawned job feeds back into the
loop state — the loop spawns `job()` and never awaits or reads it. -/
def nextDeadline (t0 I : Nat) (jobDur : Nat → Nat) : Nat → Nat
  | 0 => t0 + I
  | n + 1 => nextDeadline t0 I jobDur n + I

/-- The scheduled launch instant of job `n` in Scheduler::run under
exact-wakeup semantics for `sleep_until`: iteration 0 spawns its job
immediately at the baseline `t0` (the spawn precedes the first sleep),
and iteration `n + 1` spawns its job when `sleep_until next` returns,
i.e. at the deadline computed during iteration `n`. -/
def spawnTime (t0 I : Nat) (jobDur : Nat → Nat) : Nat → Nat
  | 0 => t0
  | n + 1 => nextDeadline t0 I jobDur n

theorem nextDeadline_eq (t0 I : Nat) (jobDur : Nat → Nat) :
    ∀ n, nextDeadline t0 I jobDur n = t0 + (n + 1) * I := by
  intro n
  induction n with
  | zero => simp [nextDeadline]
  | succ k ih =>
      simp only [nextDeadline, ih]
      ring

/-- C1: for every positive interval I the run loop computes each
next-tick deadline additively from the baseline `t0` taken at run
start, spawns the job without awaiting it, and sleeps until that
deadline; hence the scheduled time of tick N is `t0 + N * I`, for every
assignment of job durations (which never enter the loop). -/
theorem scheduler_ticks_additive (t0 I N : Nat) (jobDur : Nat → Nat)
    (hI : 0 < I) :
    spawnTime t0 I jobDur N = t0 + N * I ∧
    nextDeadline t0 I jobDur N = spawnTime t0 I jobDur N + I := by
  refine ⟨?_, ?_⟩
  · cases N with
    | zero => simp [spawnTime]
    | succ k =>
        simp only [spawnTime, nextDeadline_eq]
  · cases N with
    | zero => simp [spawnTime, nextDeadline_eq]
    | succ k =>
        simp only [spawnTime, nextDeadline_eq]
        ring

theorem scheduler_ticks_additive_witness :
    spawnTime 100 50 (fun _ => 1000000) 3 = 100 + 3 * 50 ∧
    nextDeadline 100 50 (fun _ => 1000000) 3 =
      spawnTime 100 50 (fun _ => 1000000) 3 + 50 :=
  scheduler_ticks_additive 100 50 3 (fun _ => 1000000) (by decide)

/-- C5 counterexample: constructing a Scheduler with `interval_ms = 0`
does NOT return an error — Scheduler::new returns `Ok` with a zero
interval. -/
theorem scheduler_new_zero_is_ok :
    Scheduler.new 0 = .ok { interval := 0 } := rfl

/-- C5 amended: Scheduler::new never fails — it returns `Ok` for every
`interval_ms`, including 0; it performs no validation of the interval. -/
theorem scheduler_new_never_fails (interval_ms : Nat) :
    Scheduler.new interval_ms = .ok { interval := interval_ms } := rfl

/-- Environment of probe_icmp from `src/prober/icmp.rs`: the DNS
resolution performed by `resolve_host_to_ip` (`src/util.rs`) and the
behaviour of the `surge_ping::ping` library call, which resolves with a
reply latency or a library error on its own terms (no deadline from the
caller is imposed on it). -/
structure IcmpNet where
  resolve_host_to_ip : String → Except String String
  ping : String → Except String Nat

/-- probe_icmp from `src/prober/icmp.rs`: resolves the host to an IP
and awaits `ping(ip_addr, &payload)`.  The `_timeout_ms` argument is
never read in the source, and no deadline of any kind is applied to the
ping await. -/
def probe_icmp (net : IcmpNet) (host : String) (_timeout_ms : Nat) :
    Except String Nat :=
  match net.resolve_host_to_ip host with
  | .error e => .error e
  | .ok ip_addr => net.ping ip_addr

/-- Environment of probe_tcp from `src/prober/tcp_connect.rs`: what a
`TcpStream::connect` to `host:port` does — completes the handshake
after some latency, or fails; `none` means it would take longer than
the 3000 ms `timeout` wrapper in the source allows. -/
structure TcpNet where
  connect : String → Nat → Option (Except String Nat)

/-- probe_tcp from `src/prober/tcp_connect.rs`: one connect attempt to
`host:port` under `timeout(Duration::from_millis(3000), ..)`; the
elapsed handshake time is the latency, a connect that outlives the
3000 ms wrapper is an elapsed-timeout error. -/
def probe_tcp (net : TcpNet) (host : String) (port : Nat) :
    Except String Nat :=
  match net.connect host port with
  | none => .error "deadline has elapsed"
  | some (.error e) => .error e
  | some (.ok latency) => .ok latency

/-- One HTTP exchange as seen by probe_http: the response status code
and the elapsed time from request start to full response body
received. -/
structure HttpResp where
  status : Nat
  latency_ms : Nat
deriving DecidableEq, Repr

/-- Environment of probe_http from `src/prober/http.rs`: what
`client.get(url).send()` followed by `resp.text()` produces for a given
url string, within the client's builtin deadlines (5 s client timeout,
30 s outer `timeout` wrapper) — a full response, or an error. -/
structure HttpNet where
  send : String → Except String HttpResp

/-- probe_http from `src/prober/http.rs`: issues a GET to the given url
string and awaits the full response body; it returns the elapsed time
on any complete response — `resp.status()` is never read, so the
status code (2xx, 500, ...) does not affect the result. -/
def probe_http (net : HttpNet) (url : String) : Except String Nat :=
  match net.send url with
  | .error e => .error e
  | .ok resp => .ok resp.latency_ms

/-- Environment of probe_echo from `src/prober/echo.rs`: what one UDP
send of `b"ping"` to `host:port` followed by a recv produces — `none`
means no datagram arrives within the 1000 ms `timeout` wrapper. -/
structure EchoNet where
  exchange : String → Nat → Option (Except String Nat)

/-- probe_echo from `src/prober/echo.rs`: binds an ephemeral UDP
socket, sends `b"ping"` to `host:port` and awaits any reply under
`timeout(Duration::from_millis(1000), recv)`. -/
def probe_echo (net : EchoNet) (host : String) (port : Nat) :
    Except String Nat :=
  match net.exchange host port with
  | none => .error "deadline has elapsed"
  | some (.error e) => .error e
  | some (.ok latency) => .ok latency

/-- The per-(target, probe_type) timeout counters behind
`TIMEOUT_COUNTER` (`IntCounterVec` with label set
["target", "probe_type"]) in `src/metrics.rs`. -/
def TimeoutCounters : Type := String × String → Nat

/-- inc_timeout from `src/metrics.rs`:
`TIMEOUT_COUNTER.with_label_values(&[target, probe_type]).inc()` —
adds 1 to the counter of exactly that label pair. -/
def inc_timeout (target probe_type : String) (c : TimeoutCounters) :
    TimeoutCounters :=
  fun p => if p = (target, probe_type) then c p + 1 else c p

/-- A finite history of inc_timeout calls (each entry one
`(target, probe_type)` label pair, in call order) applied to a counter
state. -/
def applyIncs (calls : List (String × String)) (c : TimeoutCounters) :
    TimeoutCounters :=
  calls.foldl (fun acc pr => inc_timeout pr.1 pr.2 acc) c

theorem applyIncs_count (calls : List (String × String))
    (c : TimeoutCounters) (target probe_type : String) :
    applyIncs calls c (target, probe_type) =
      c (target, probe_type) + calls.count (target, probe_type) := by
  induction calls generalizing c with
  | nil => simp [applyIncs]
  | cons x xs ih =>
      obtain ⟨a, b⟩ := x
      have hx : applyIncs ((a, b) :: xs) c =
          applyIncs xs (inc_timeout a b c) := rfl
      rw [hx, ih, List.count_cons]
      by_cases h : (a, b) = ((target, probe_type) : String × String)
      · have ha : a = target := congrArg Prod.fst h
        have hb : b = probe_type := congrArg Prod.snd h
        simp [inc_timeout, ha, hb]
        ring
      · have hne : inc_timeout a b c (target, probe_type) =
            c (target, probe_type) := by
          simp only [inc_timeout]
          exact if_neg (fun hc => h hc.symm)
        rw [hne]
        simp [h]

/-- C9: any history of inc_timeout calls increases the counter of a
label pair by exactly the number of calls carrying that pair — M calls
for (target, probe_type) add exactly M, and calls for other pairs leave
it unchanged (a pair absent from the history keeps its old value). -/
theorem inc_timeout_counts (calls : List (String × String))
    (c : TimeoutCounters) (target probe_type : String) :
    applyIncs calls c (target, probe_type) =
      c (target, probe_type) + calls.count (target, probe_type) :=
  applyIncs_count calls c target probe_type

/-- One invocation of a probe driver as made by the dispatch closure in
`src/main.rs`, with the arguments it passes: `probe_icmp(&host,
timeout_ms)`, `probe_tcp(&host, port)`, `probe_http(&url)`,
`probe_echo(&host, port)`.  Only the ICMP call carries a timeout
argument — the other three drivers take none. -/
inductive DriverCall where
  | icmp (host : String) (timeout_ms : Nat)
  | tcp (host : String) (port : Nat)
  | http (url : String)
  | echo (host : String) (port : Nat)
deriving DecidableEq, Repr

/-- The probe kind a driver call is routed to. -/
def DriverCall.routedKind : DriverCall → ProbeKind
  | .icmp _ _ => .icmp
  | .tcp _ _ => .tcpConnect
  | .http _ => .http
  | .echo _ _ => .echo

/-- One call into the metrics sink (`src/metrics.rs`) as made by the
dispatch closure: `observe_latency(&name, label, latency_ms)` on driver
success, `inc_timeout(&name, label)` on driver failure. -/
inductive SinkEvent where
  | observeLatency (target probe_type : String) (latency_ms : Nat)
  | incTimeout (target probe_type : String)
deriving DecidableEq, Repr

/-- The trace of one spawned per-target task of the dispatch closure:
the driver calls it makes and the sink calls it makes, in order. -/
structure TaskRun where
  driverCalls : List DriverCall
  sinkEvents : List SinkEvent
deriving DecidableEq, Repr

/-- The four probe driver functions as visible to the dispatch closure
in `src/main.rs`, abstracted over network behaviour: each field has the
shape of the corresponding `probe_*` signature in `src/prober/` and
returns the driver's `anyhow::Result<Duration>` (latency in ms). -/
structure ProbeEnv where
  icmpDriver : String → Nat → Except String Nat
  tcpDriver : String → Nat → Except String Nat
  httpDriver : String → Except String Nat
  echoDriver : String → Nat → Except String Nat

/-- The body of the task spawned per target by the dispatch closure in
`src/main.rs` (`tokio::spawn(async move { match t2.kind { .. } })`):
route on `t2.kind`; for Icmp first read `default_timeout_ms` from the
current config (modelled by the `default_timeout_ms` argument, the
value held by the config source at dispatch time) and pass it to the
driver; TcpConnect and Echo pass `t2.port.unwrap_or(80)` resp.
`t2.port.unwrap_or(9000)`; Http passes `t2.get_http_url()`.  On `Ok`
the task calls `observe_latency(&t2.name, label, ..)`, on `Err` it
calls `inc_timeout(&t2.name, label)`, with the literal labels "icmp",
"tcp_connect", "http", "echo" of the source. -/
def probeTask (env : ProbeEnv) (default_timeout_ms : Nat)
    (t2 : TargetConfig) : TaskRun :=
  match t2.kind with
  | .icmp =>
      let timeout_ms := default_timeout_ms
      match env.icmpDriver t2.host timeout_ms with
      | .ok latency =>
          ⟨[.icmp t2.host timeout_ms],
           [.observeLatency t2.name "icmp" latency]⟩
      | .error _ =>
          ⟨[.icmp t2.host timeout_ms], [.incTimeout t2.name "icmp"]⟩
  | .tcpConnect =>
      match env.tcpDriver t2.host (t2.port.getD 80) with
      | .ok latency =>
          ⟨[.tcp t2.host (t2.port.getD 80)],
           [.observeLatency t2.name "tcp_connect" latency]⟩
      | .error _ =>
          ⟨[.tcp t2.host (t2.port.getD 80)],
           [.incTimeout t2.name "tcp_connect"]⟩
  | .http =>
      let url := t2.get_http_url
      match env.httpDriver url with
      | .ok latency =>
          ⟨[.http url], [.observeLatency t2.name "http" latency]⟩
      | .error _ =>
          ⟨[.http url], [.incTimeout t2.name "http"]⟩
  | .echo =>
      match env.echoDriver t2.host (t2.port.getD 9000) with
      | .ok latency =>
          ⟨[.echo t2.host (t2.port.getD 9000)],
           [.observeLatency t2.name "echo" latency]⟩
      | .error _ =>
          ⟨[.echo t2.host (t2.port.getD 9000)],
           [.incTimeout t2.name "echo"]⟩

/-- The driver result the task of a given target observes: the same
routing as `probeTask`, projected to the `Result` of the single driver
call. -/
def driverOutcome (env : ProbeEnv) (default_timeout_ms : Nat)
    (t2 : TargetConfig) : Except String Nat :=
  match t2.kind with
  | .icmp => env.icmpDriver t2.host default_timeout_ms
  | .tcpConnect => env.tcpDriver t2.host (t2.port.getD 80)
  | .http => env.httpDriver t2.get_http_url
  | .echo => env.echoDriver t2.host (t2.port.getD 9000)

/-- The stable probe-type label the dispatch closure uses for each
kind. -/
def probe_type_label : ProbeKind → String
  | .icmp => "icmp"
  | .tcpConnect => "tcp_connect"
  | .http => "http"
  | .echo => "echo"

/-- One invocation of the job the dispatch closure hands to the
scheduler (`src/main.rs`): clone the snapshot once, then spawn one
`probeTask` per target of the snapshot, in snapshot order. -/
def dispatchJob (env : ProbeEnv) (default_timeout_ms : Nat)
    (targets_snapshot : List TargetConfig) : List TaskRun :=
  targets_snapshot.map (probeTask env default_timeout_ms)

/-- The tick job including the snapshot read: `source` is the value
held by the `targets` RwLock over time, `readT` the instant of the one
`targets.read().await.clone()` at the start of the job; everything
after dispatches from that copy and never consults `source` again. -/
def tickDispatch (env : ProbeEnv) (default_timeout_ms : Nat)
    (source : Nat → List TargetConfig) (readT : Nat) : List TaskRun :=
  dispatchJob env default_timeout_ms (source readT)

/-- What one spawned task must look like for its target: exactly one
driver call, routed to the driver of the target's kind; and exactly one
sink call carrying the target's name and the fixed label of its kind —
observe_latency with the driver's latency on success, inc_timeout on
failure. -/
def TaskMatches (env : ProbeEnv) (d : Nat) (t : TargetConfig)
    (run : TaskRun) : Prop :=
  (∃ c, run.driverCalls = [c] ∧ c.routedKind = t.kind) ∧
  ((∃ l, driverOutcome env d t = .ok l ∧
      run.sinkEvents =
        [.observeLatency t.name (probe_type_label t.kind) l]) ∨
   (∃ e, driverOutcome env d t = .error e ∧
      run.sinkEvents = [.incTimeout t.name (probe_type_label t.kind)]))

theorem probeTask_matches (env : ProbeEnv) (d : Nat) (t : TargetConfig) :
    TaskMatches env d t (probeTask env d t) := by
  obtain ⟨name, kind, host, port⟩ := t
  cases kind with
  | icmp =>
      cases hres : env.icmpDriver host d with
      | ok l =>
          exact ⟨⟨.icmp host d, by simp [probeTask, hres], rfl⟩,
            .inl ⟨l, by simp [driverOutcome, hres],
              by simp [probeTask, hres, probe_type_label]⟩⟩
      | error e =>
          exact ⟨⟨.icmp host d, by simp [probeTask, hres], rfl⟩,
            .inr ⟨e, by simp [driverOutcome, hres],
              by simp [probeTask, hres, probe_type_label]⟩⟩
  | tcpConnect =>
      cases hres : env.tcpDriver host (port.getD 80) with
      | ok l =>
          exact ⟨⟨.tcp host (port.getD 80), by simp [probeTask, hres],
              rfl⟩,
            .inl ⟨l, by simp [driverOutcome, hres],
              by simp [probeTask, hres, probe_type_label]⟩⟩
      | error e =>
          exact ⟨⟨.tcp host (port.getD 80), by simp [probeTask, hres],
              rfl⟩,
            .inr ⟨e, by simp [driverOutcome, hres],
              by simp [probeTask, hres, probe_type_label]⟩⟩
  | http =>
      cases hres : env.httpDriver
          (TargetConfig.get_http_url ⟨name, .http, host, port⟩) with
      | ok l =>
          exact ⟨⟨.http (TargetConfig.get_http_url ⟨name, .http, host,
              port⟩), by simp [probeTask, hres], rfl⟩,
            .inl ⟨l, by simp [driverOutcome, hres],
              by simp [probeTask, hres, probe_type_label]⟩⟩
      | error e =>
          exact ⟨⟨.http (TargetConfig.get_http_url ⟨name, .http, host,
              port⟩), by simp [probeTask, hres], rfl⟩,
            .inr ⟨e, by simp [driverOutcome, hres],
              by simp [probeTask, hres, probe_type_label]⟩⟩
  | echo =>
      cases hres : env.echoDriver host (port.getD 9000) with
      | ok l =>
          exact ⟨⟨.echo host (port.getD 9000),
              by simp [probeTask, hres], rfl⟩,
            .inl ⟨l, by simp [driverOutcome, hres],
              by simp [probeTask, hres, probe_type_label]⟩⟩
      | error e =>
          exact ⟨⟨.echo host (port.getD 9000),
              by simp [probeTask, hres], rfl⟩,
            .inr ⟨e, by simp [driverOutcome, hres],
              by simp [probeTask, hres, probe_type_label]⟩⟩

/-- C2: one invocation of the dispatch job over a snapshot of K targets
spawns exactly K probe tasks, one per target in snapshot order, each
making one driver call routed to the driver of the target's kind and
exactly one sink call with the fixed label of that kind — a latency
observation on driver success, a timeout increment on driver failure. -/
theorem dispatch_one_task_per_target (env : ProbeEnv) (d : Nat)
    (snap : List TargetConfig) :
    (dispatchJob env d snap).length = snap.length ∧
    List.Forall₂ (TaskMatches env d) snap (dispatchJob env d snap) := by
  constructor
  · simp [dispatchJob]
  · induction snap with
    | nil => exact List.Forall₂.nil
    | cons t ts ih => exact List.Forall₂.cons (probeTask_matches env d t) ih

/-- C6: when the driver call of a target's task fails, the task has made
exactly one driver call (no retry), and its sink trace is exactly one
inc_timeout for (name, label) — in particular no observe_latency call
occurs for that target in that tick. -/
theorem failed_probe_counted_once (env : ProbeEnv) (d : Nat)
    (t : TargetConfig) (e : String)
    (h : driverOutcome env d t = .error e) :
    (probeTask env d t).driverCalls.length = 1 ∧
    (probeTask env d t).sinkEvents =
      [SinkEvent.incTimeout t.name (probe_type_label t.kind)] := by
  obtain ⟨name, kind, host, port⟩ := t
  cases kind <;> simp only [driverOutcome] at h <;>
    simp [probeTask, h, probe_type_label]

/-- Concrete driver behaviour for closed evaluations: ICMP and Echo
answer with fixed latencies, every TCP connect is refused, HTTP answers
after 120 ms. -/
def sampleEnv : ProbeEnv where
  icmpDriver := fun _ _ => .ok 12
  tcpDriver := fun _ _ => .error "connection refused"
  httpDriver := fun _ => .ok 120
  echoDriver := fun _ _ => .ok 7

/-- The TcpConnect scenario target of the spec. -/
def db1 : TargetConfig :=
  { name := "db1", kind := .tcpConnect, host := "10.0.0.5",
    port := some 5432 }

theorem failed_probe_counted_once_witness :
    driverOutcome sampleEnv 3000 db1 = .error "connection refused" ∧
    (probeTask sampleEnv 3000 db1).driverCalls.length = 1 ∧
    (probeTask sampleEnv 3000 db1).sinkEvents =
      [SinkEvent.incTimeout "db1" "tcp_connect"] :=
  ⟨rfl, failed_probe_counted_once sampleEnv 3000 db1 "connection refused"
    rfl⟩

/-- C4 counterexample: for the TcpConnect target db1 the spawned task
is bit-for-bit identical under configured default timeouts 3000 and
9999, and its single driver call `probe_tcp("10.0.0.5", 5432)` carries
no timeout argument at all — so a changed timeout configuration does
not take effect for the next TcpConnect probe, refuting the claim for
kinds other than Icmp. -/
theorem timeout_not_passed_for_tcp :
    probeTask sampleEnv 3000 db1 = probeTask sampleEnv 9999 db1 ∧
    (probeTask sampleEnv 3000 db1).driverCalls =
      [DriverCall.tcp "10.0.0.5" 5432] :=
  ⟨rfl, rfl⟩

/-- C4 amended: only for Icmp targets does the spawned task read the
currently-effective default timeout at dispatch time and pass it to the
driver call; for TcpConnect, Http and Echo targets the task is entirely
independent of the configured default timeout — those drivers take no
timeout argument and use hardcoded deadlines. -/
theorem timeout_read_only_for_icmp (env : ProbeEnv) (t : TargetConfig)
    (d d' : Nat) :
    (t.kind = .icmp →
      (probeTask env d t).driverCalls = [DriverCall.icmp t.host d]) ∧
    (t.kind ≠ .icmp → probeTask env d t = probeTask env d' t) := by
  obtain ⟨name, kind, host, port⟩ := t
  cases kind with
  | icmp =>
      refine ⟨fun _ => ?_, fun hne => absurd rfl hne⟩
      cases hres : env.icmpDriver host d <;> simp [probeTask, hres]
  | tcpConnect => exact ⟨fun hk => (nomatch hk), fun _ => rfl⟩
  | http => exact ⟨fun hk => (nomatch hk), fun _ => rfl⟩
  | echo => exact ⟨fun hk => (nomatch hk), fun _ => rfl⟩

/-- An Icmp target with no port. -/
def ping1 : TargetConfig :=
  { name := "ping1", kind := .icmp, host := "8.8.8.8", port := none }

theorem timeout_read_only_for_icmp_witness :
    (probeTask sampleEnv 1000 ping1).driverCalls =
      [DriverCall.icmp "8.8.8.8" 1000] ∧
    probeTask sampleEnv 3000 db1 = probeTask sampleEnv 9999 db1 :=
  ⟨(timeout_read_only_for_icmp sampleEnv ping1 1000 2000).1 rfl,
   (timeout_read_only_for_icmp sampleEnv db1 3000 9999).2
     (fun hk => nomatch hk)⟩

/-- Network for the ICMP failing input: the host string is already an
IP (resolution returns it unchanged) and the echo reply arrives 1500 ms
after the request is sent. -/
def lateReplyNet : IcmpNet where
  resolve_host_to_ip := fun h => .ok h
  ping := fun _ => .ok 1500

/-- C3: evaluation at the failing input — probe_icmp called with
timeout_ms = 1000 on a host whose reply arrives only after 1500 ms
returns `Ok` with 1500 ms instead of a Timeout failure, and its result
is the same for every timeout argument: the `_timeout_ms` parameter of
`src/prober/icmp.rs` is never read and no deadline is applied to the
ping await, contradicting the driver contract that the wait is bounded
by the received timeout. -/
theorem icmp_ignores_timeout :
    probe_icmp lateReplyNet "10.1.1.1" 1000 = .ok 1500 ∧
    ∀ a b, probe_icmp lateReplyNet "10.1.1.1" a =
      probe_icmp lateReplyNet "10.1.1.1" b :=
  ⟨rfl, fun _ _ => rfl⟩

/-- C7: the HTTP request URL is exactly the scheme-less string
`host:port` with the port defaulting to 80; a dispatch task for an Http
target passes exactly that URL to the HTTP driver; and probe_http
reports success with the response's elapsed time whenever a full
response is received — the status code never enters the result, so a
500 response is recorded as a success latency, never as a failure. -/
theorem http_url_and_status_ignored (t : TargetConfig) (net : HttpNet)
    (url : String) (resp : HttpResp) (env : ProbeEnv) (d : Nat) :
    t.get_http_url = t.host ++ ":" ++ toString (t.port.getD 80) ∧
    (t.kind = .http →
      (probeTask env d t).driverCalls = [DriverCall.http t.get_http_url]) ∧
    (net.send url = .ok resp → probe_http net url = .ok resp.latency_ms) := by
  refine ⟨rfl, ?_, ?_⟩
  · intro hk
    obtain ⟨name, kind, host, port⟩ := t
    cases kind with
    | http =>
        cases hres : env.httpDriver
            (host ++ ":" ++ toString (port.getD 80)) <;>
          simp [probeTask, TargetConfig.get_http_url, hres]
    | icmp => exact nomatch hk
    | tcpConnect => exact nomatch hk
    | echo => exact nomatch hk
  · intro h
    simp [probe_http, h]

/-- The Http scenario target of the spec. -/
def web1 : TargetConfig :=
  { name := "web1", kind := .http, host := "example.com",
    port := some 80 }

/-- HTTP behaviour answering every request with status 500 after
120 ms. -/
def net500 : HttpNet where
  send := fun _ => .ok { status := 500, latency_ms := 120 }

theorem http_url_and_status_ignored_witness :
    web1.get_http_url = "example.com:80" ∧
    (probeTask sampleEnv 100 web1).driverCalls =
      [DriverCall.http web1.get_http_url] ∧
    probe_http net500 "example.com:80" = .ok 120 :=
  ⟨(http_url_and_status_ignored web1 net500 "example.com:80"
      { status := 500, latency_ms := 120 } sampleEnv 100).1,
   (http_url_and_status_ignored web1 net500 "example.com:80"
      { status := 500, latency_ms := 120 } sampleEnv 100).2.1 rfl,
   (http_url_and_status_ignored web1 net500 "example.com:80"
      { status := 500, latency_ms := 120 } sampleEnv 100).2.2 rfl⟩

/-- C8: the probes of one tick are a function only of the single
snapshot copy read at tick start — two runs whose sources hold the same
list at their respective read instants dispatch identical task lists,
and two sources that agree up to the read instant (i.e. differ only by
mutations after the read) dispatch identically for that tick. -/
theorem tick_snapshot_isolation (env : ProbeEnv) (d : Nat)
    (s1 s2 : Nat → List TargetConfig) (r1 r2 : Nat) :
    (s1 r1 = s2 r2 →
      tickDispatch env d s1 r1 = tickDispatch env d s2 r2) ∧
    ((∀ u, u ≤ r1 → s1 u = s2 u) →
      tickDispatch env d s1 r1 = tickDispatch env d s2 r1) := by
  constructor
  · intro h
    simp only [tickDispatch]
    rw [h]
  · intro h
    simp only [tickDispatch]
    rw [h r1 le_rfl]

/-- A source holding [web1] up to instant 5, then emptied. -/
def sourceA : Nat → List TargetConfig :=
  fun u => if u ≤ 5 then [web1] else []

/-- A source holding [web1] forever. -/
def sourceB : Nat → List TargetConfig :=
  fun _ => [web1]

theorem tick_snapshot_isolation_witness :
    tickDispatch sampleEnv 100 sourceA 3 =
      tickDispatch sampleEnv 100 sourceB 7 ∧
    tickDispatch sampleEnv 100 sourceA 3 =
      tickDispatch sampleEnv 100 sourceB 3 :=
  ⟨(tick_snapshot_isolation sampleEnv 100 sourceA sourceB 3 7).1
     (by decide),
   (tick_snapshot_isolation sampleEnv 100 sourceA sourceB 3 3).2
     (fun u hu => by
       have h5 : u ≤ 5 := Nat.le_trans hu (by decide)
       simp [sourceA, sourceB, if_pos h5])⟩

/-- C10: a target with no port gets a fixed per-kind default port — 80
for TcpConnect, 80 for Http via the URL construction, 9000 for Echo —
and a present port is always used unchanged (for every kind the driver
call receives `port.getD default`, which is the stored port whenever
one is present). -/
theorem default_ports (env : ProbeEnv) (d : Nat) (t : TargetConfig) :
    (t.kind = .tcpConnect →
      (probeTask env d t).driverCalls =
        [DriverCall.tcp t.host (t.port.getD 80)]) ∧
    (t.kind = .http →
      (probeTask env d t).driverCalls =
        [DriverCall.http (t.host ++ ":" ++ toString (t.port.getD 80))]) ∧
    (t.kind = .echo →
      (probeTask env d t).driverCalls =
        [DriverCall.echo t.host (t.port.getD 9000)]) ∧
    (t.port = none → t.port.getD 80 = 80 ∧ t.port.getD 9000 = 9000) ∧
    (∀ p, t.port = some p → t.port.getD 80 = p ∧ t.port.getD 9000 = p) := by
  obtain ⟨name, kind, host, port⟩ := t
  refine ⟨?_, ?_, ?_, ?_, ?_⟩
  · intro hk
    cases kind with
    | tcpConnect =>
        cases hres : env.tcpDriver host (port.getD 80) <;>
          simp [probeTask, hres]
    | icmp => exact nomatch hk
    | http => exact nomatch hk
    | echo => exact nomatch hk
  · intro hk
    cases kind with
    | http =>
        cases hres : env.httpDriver
            (host ++ ":" ++ toString (port.getD 80)) <;>
          simp [probeTask, TargetConfig.get_http_url, hres]
    | icmp => exact nomatch hk
    | tcpConnect => exact nomatch hk
    | echo => exact nomatch hk
  · intro hk
    cases kind with
    | echo =>
        cases hres : env.echoDriver host (port.getD 9000) <;>
          simp [probeTask, hres]
    | icmp => exact nomatch hk
    | tcpConnect => exact nomatch hk
    | http => exact nomatch hk
  · intro hp
    rw [hp]
    exact ⟨rfl, rfl⟩
  · intro p hp
    rw [hp]
    exact ⟨rfl, rfl⟩

/-- An Echo target with no port. -/
def echo1 : TargetConfig :=
  { name := "echo1", kind := .echo, host := "10.0.0.7", port := none }

theorem default_ports_witness :
    (probeTask sampleEnv 100 echo1).driverCalls =
      [DriverCall.echo "10.0.0.7" 9000] ∧
    (probeTask sampleEnv 100 db1).driverCalls =
      [DriverCall.tcp "10.0.0.5" 5432] :=
  ⟨(default_ports sampleEnv 100 echo1).2.2.1 rfl,
   (default_ports sampleEnv 100 db1).1 rfl⟩

end LatencyProbe
